import Mathlib

/-!
Verification of the tabular aggregation pipeline and upload/file-dispatch
logic of the Visually-Report-Presentator (VRP) sales dashboard.

The frontend pipeline `createChartData` (src/frontend/src/App.jsx) is
embedded as pure functions over `List Row`, with JS numbers modelled as
rationals and JS strings as lists of characters.  The backend upload
route (src/backend/server.js) is embedded as `uploadHandler`, with the
external JSON.parse modelled as an abstract partial parse function.
-/

namespace VRP

/-- One parsed record of the uploaded table, keyed by the columns the
pipeline reads: Date, Product Name, Total Revenue, Quantity Sold. -/
structure Row where
  Date : List Char
  productName : List Char
  totalRevenue : ℚ
  quantitySold : ℚ
deriving DecidableEq, Repr

/-- Characters of a string literal, for writing concrete JS strings. -/
def strC (s : String) : List Char := s.data

/-- JS `[...new Set(xs)]` with the insertion-order set carried explicitly:
an element is kept iff it has not been seen before. -/
def dedupAux {α : Type} [DecidableEq α] (seen : List α) : List α → List α
  | [] => []
  | a :: as => if a ∈ seen then dedupAux seen as else a :: dedupAux (a :: seen) as

/-- JS `[...new Set(xs)]`: de-duplication keeping first occurrences, in order. -/
def dedupFirst {α : Type} [DecidableEq α] (l : List α) : List α := dedupAux [] l

/-- JS `String.prototype.split` with a one-character separator: the list of
chunks between occurrences of the separator (never empty as a list). -/
def jsSplit (sep : Char) : List Char → List (List Char)
  | [] => [[]]
  | c :: cs =>
    if c = sep then [] :: jsSplit sep cs
    else
      match jsSplit sep cs with
      | [] => [[c]]
      | t :: ts => (c :: t) :: ts

/-- JS `s.startsWith(p)` on character lists. -/
def startsWithC : List Char → List Char → Bool
  | _, [] => true
  | [], _ :: _ => false
  | c :: cs, p :: ps => decide (c = p) && startsWithC cs ps

/-- `const dates = data.map(item => item.Date)` -/
def datesOf (rows : List Row) : List (List Char) := rows.map (·.Date)

/-- `const totalRevenue = data.map(item => item["Total Revenue"])` -/
def totalRevenueOf (rows : List Row) : List ℚ := rows.map (·.totalRevenue)

/-- `const products = [...new Set(data.map(item => item["Product Name"]))]` -/
def productsOf (rows : List Row) : List (List Char) :=
  dedupFirst (rows.map (·.productName))

/-- `data.filter(item => item["Product Name"] === product)` -/
def rowsForProduct (rows : List Row) (p : List Char) : List Row :=
  rows.filter (fun item => decide (item.productName = p))

/-- `productData.reduce((sum, item) => sum + item["Total Revenue"], 0)` -/
def productRevenueSum (rows : List Row) (p : List Char) : ℚ :=
  ((rowsForProduct rows p).map (·.totalRevenue)).sum

/-- `productData.reduce((sum, item) => sum + item["Quantity Sold"], 0)` -/
def productQuantitySum (rows : List Row) (p : List Char) : ℚ :=
  ((rowsForProduct rows p).map (·.quantitySold)).sum

/-- `const averageRevenue = products.map(...)`: per product, total revenue
divided by total quantity. -/
def averageRevenueOf (rows : List Row) : List ℚ :=
  (productsOf rows).map (fun p => productRevenueSum rows p / productQuantitySum rows p)

/-- `const revenueVsQuantity = products.map(...)`: per product, the scatter
point `{x: totalQuantity, y: totalRevenue}` as an (x, y) pair. -/
def revenueVsQuantityOf (rows : List Row) : List (ℚ × ℚ) :=
  (productsOf rows).map (fun p => (productQuantitySum rows p, productRevenueSum rows p))

/-- `const months = [...new Set(dates.map(date => date.split("/")[0] + "/2023"))]` -/
def monthsOf (rows : List Row) : List (List Char) :=
  dedupFirst ((datesOf rows).map (fun d => (jsSplit '/' d).headD [] ++ strC "/2023"))

/-- `const monthlyRevenue = months.map(month => data.filter(item =>
item.Date.startsWith(month)).reduce((sum, item) => sum + item["Total Revenue"], 0))` -/
def monthlyRevenueOf (rows : List Row) : List ℚ :=
  (monthsOf rows).map (fun month =>
    ((rows.filter (fun item => startsWithC item.Date month)).map (·.totalRevenue)).sum)

/-- `const monthlyGrowth = monthlyRevenue.map((revenue, index, arr) =>
index === 0 ? 0 : ((revenue - arr[index-1]) / arr[index-1]) * 100)`,
written as a map over indices into the monthly-revenue array. -/
def monthlyGrowthOf (rows : List Row) : List ℚ :=
  (List.range (monthlyRevenueOf rows).length).map (fun index =>
    if index = 0 then 0
    else
      (((monthlyRevenueOf rows).getD index 0 - (monthlyRevenueOf rows).getD (index - 1) 0)
        / (monthlyRevenueOf rows).getD (index - 1) 0) * 100)

/-- The `data` array of one chart object: plain numbers for line/bar charts,
(x, y) points for the scatter chart. -/
inductive ChartValues : Type where
  | nums (vals : List ℚ)
  | points (pts : List (ℚ × ℚ))
deriving DecidableEq, Repr

/-- One chart-ready object: an optional `labels` field (the scatter object
carries none) and a single series with its label string and data. -/
structure Chart where
  labels : Option (List (List Char))
  seriesName : List Char
  seriesData : ChartValues
deriving DecidableEq, Repr

/-- The record returned by `createChartData`: six chart objects. -/
structure ChartBundle where
  revenueOverTime : Chart
  productRevenueChart : Chart
  quantitySoldChart : Chart
  averageRevenueChart : Chart
  scatterPlotData : Chart
  monthlyGrowthChart : Chart
deriving DecidableEq, Repr

/-- `createChartData` from src/frontend/src/App.jsx: the aggregation pipeline
from the parsed row sequence to the six chart datasets.  Colors and chart-kind
configuration are presentation-only and omitted; each chart keeps its labels
(when the source object has a `labels` key), series label and data. -/
def createChartData (rows : List Row) : ChartBundle :=
  ⟨⟨some (datesOf rows), strC "Revenue Over Time", .nums (totalRevenueOf rows)⟩,
   ⟨some (productsOf rows), strC "Product-Wise Revenue",
     .nums ((productsOf rows).map (fun product =>
       ((rows.filter (fun item => decide (item.productName = product))).map
         (·.totalRevenue)).sum))⟩,
   ⟨some (productsOf rows), strC "Quantity Sold",
     .nums ((productsOf rows).map (fun product =>
       ((rows.filter (fun item => decide (item.productName = product))).map
         (·.quantitySold)).sum))⟩,
   ⟨some (productsOf rows), strC "Average Revenue per Product",
     .nums (averageRevenueOf rows)⟩,
   ⟨none, strC "Revenue vs Quantity Sold", .points (revenueVsQuantityOf rows)⟩,
   ⟨some (monthsOf rows), strC "Monthly Revenue Growth (%)",
     .nums (monthlyGrowthOf rows)⟩⟩

/-- The numeric data list of a chart (empty for the scatter chart). -/
def chartValues : Chart → List ℚ
  | ⟨_, _, .nums vals⟩ => vals
  | ⟨_, _, .points _⟩ => []

/-- The point data list of a chart (empty for non-scatter charts). -/
def chartPoints : Chart → List (ℚ × ℚ)
  | ⟨_, _, .nums _⟩ => []
  | ⟨_, _, .points pts⟩ => pts

/-- JS response body: either plain text or a parsed JSON value of type `J`. -/
inductive Body (J : Type) : Type where
  | text (s : List Char)
  | json (j : J)
deriving DecidableEq

/-- An HTTP response: status code and body. -/
structure Response (J : Type) : Type where
  status : Nat
  body : Body J
deriving DecidableEq

/-- The `POST /upload` route handler from src/backend/server.js.  The request
is reduced to its optional uploaded file bytes; `JSON.parse` is an external
library call, abstracted as `parseJson` returning `none` exactly when it
throws.  Missing file: 400 "No file uploaded.".  Parse failure: 400
"Invalid JSON file.".  Otherwise 200 with the parsed value echoed. -/
def uploadHandler {J : Type} (parseJson : List Char → Option J)
    (file : Option (List Char)) : Response J :=
  match file with
  | none => ⟨400, .text (strC "No file uploaded.")⟩
  | some bytes =>
    match parseJson bytes with
    | some jsonData => ⟨200, .json jsonData⟩
    | none => ⟨400, .text (strC "Invalid JSON file.")⟩

/-- A selected file: its name and raw content bytes. -/
structure UploadedFile : Type where
  name : List Char
  content : List Char
deriving DecidableEq

/-- `file.name.split(".").pop().toLowerCase()`: the lower-cased text after
the last dot of the file name. -/
def fileExtensionOf (name : List Char) : List Char :=
  ((jsSplit '.' name).getLastD []).map Char.toLower

/-- `handleFileChange` from src/frontend/src/App.jsx, as a transition on the
dashboard's stored `data` state.  The external CSV and spreadsheet parsers
are abstracted as `parseCsv` and `parseXlsx`; `setData` becomes returning the
new state.  No selected file, or an extension other than csv/xls/xlsx, leaves
the state unchanged. -/
def handleFileChange (parseCsv parseXlsx : List Char → List Row)
    (file : Option UploadedFile) (data : Option (List Row)) : Option (List Row) :=
  match file with
  | none => data
  | some f =>
    if fileExtensionOf f.name = strC "csv" then some (parseCsv f.content)
    else if fileExtensionOf f.name = strC "xls" ∨ fileExtensionOf f.name = strC "xlsx" then
      some (parseXlsx f.content)
    else data

/-- Modelled from the spec (section 4.2, monthlyGrowth step 1): the month key
of a date string is "the substring of Date before its first '/'" with the
fixed year suffix appended.  This is the spec's-words counterpart of the
code's `date.split("/")[0] + "/2023"`, for the refinement claim C2. -/
def specMonthKey (d : List Char) : List Char :=
  d.takeWhile (fun c => decide (c ≠ '/')) ++ strC "/2023"

/-- The three example rows of the spec (section 8). -/
def exampleRows : List Row :=
  [⟨strC "1/5/2023", strC "A", 100, 10⟩,
   ⟨strC "1/6/2023", strC "B", 50, 5⟩,
   ⟨strC "2/1/2023", strC "A", 200, 20⟩]

/-- Rows whose months really do bucket (dates already in `M/YYYY` form),
used to exercise the growth formula with a nonzero previous month. -/
def growthRows : List Row :=
  [⟨strC "1/2023", strC "A", 100, 10⟩,
   ⟨strC "2/2023", strC "B", 50, 5⟩]

section Lemmas

variable {α β : Type}

theorem get_zero_eq_getD (l : List α) (h : 0 < l.length) (d : α) :
    l.get ⟨0, h⟩ = l.getD 0 d := by
  cases l with
  | nil => simp at h
  | cons a as => rfl

theorem map_getD (f : α → β) (l : List α) (i : ℕ) (hi : i < l.length)
    (d : β) (da : α) : (l.map f).getD i d = f (l.getD i da) := by
  induction l generalizing i with
  | nil => simp at hi
  | cons a as ih =>
    cases i with
    | zero => rfl
    | succ n =>
      simp only [List.map_cons, List.getD_cons_succ]
      exact ih n (by simpa using hi)

theorem range_getD {n i : ℕ} (hi : i < n) (d : ℕ) :
    (List.range n).getD i d = i := by
  simp [List.getD, List.getElem?_range hi]

theorem jsSplit_ne_nil (sep : Char) (l : List Char) : jsSplit sep l ≠ [] := by
  cases l with
  | nil => simp [jsSplit]
  | cons c cs =>
    by_cases h : c = sep
    · simp [jsSplit, h]
    · simp only [jsSplit, if_neg h]
      cases jsSplit sep cs <;> simp

theorem jsSplit_headD (sep : Char) (l : List Char) :
    (jsSplit sep l).headD [] = l.takeWhile (fun c => decide (c ≠ sep)) := by
  induction l with
  | nil => rfl
  | cons c cs ih =>
    by_cases h : c = sep
    · simp [jsSplit, h, List.takeWhile]
    · simp only [jsSplit, if_neg h]
      have hne := jsSplit_ne_nil sep cs
      cases hsp : jsSplit sep cs with
      | nil => exact absurd hsp hne
      | cons t ts =>
        simp only [List.headD_cons, List.takeWhile]
        rw [hsp] at ih
        simp only [List.headD_cons] at ih
        simp [h, ih]

theorem startsWithC_iff (s p : List Char) :
    startsWithC s p = true ↔ ∃ t, s = p ++ t := by
  induction p generalizing s with
  | nil => exact ⟨fun _ => ⟨s, rfl⟩, fun _ => by cases s <;> rfl⟩
  | cons q qs ih =>
    cases s with
    | nil => simp [startsWithC]
    | cons c cs =>
      simp only [startsWithC, Bool.and_eq_true, decide_eq_true_eq, ih,
        List.cons_append, List.cons.injEq]
      constructor
      · rintro ⟨hcq, t, ht⟩
        exact ⟨t, hcq, ht⟩
      · rintro ⟨t, hcq, ht⟩
        exact ⟨hcq, t, ht⟩

theorem mem_dedupAux [DecidableEq α] {x : α} {l seen : List α} :
    x ∈ dedupAux seen l ↔ x ∈ l ∧ x ∉ seen := by
  induction l generalizing seen with
  | nil => simp [dedupAux]
  | cons a as ih =>
    by_cases h : a ∈ seen
    · simp only [dedupAux, if_pos h, ih, List.mem_cons]
      constructor
      · rintro ⟨hm, hn⟩
        exact ⟨Or.inr hm, hn⟩
      · rintro ⟨hax | hm, hn⟩
        · exact absurd (hax ▸ h) hn
        · exact ⟨hm, hn⟩
    · simp only [dedupAux, if_neg h, List.mem_cons, ih]
      by_cases hx : x = a
      · subst hx
        simp [h]
      · simp [hx]

theorem nodup_dedupAux [DecidableEq α] (l seen : List α) :
    (dedupAux seen l).Nodup := by
  induction l generalizing seen with
  | nil => simp [dedupAux]
  | cons a as ih =>
    by_cases h : a ∈ seen
    · simpa [dedupAux, if_pos h] using ih seen
    · simp only [dedupAux, if_neg h, List.nodup_cons]
      refine ⟨fun hmem => ?_, ih (a :: seen)⟩
      exact (mem_dedupAux.mp hmem).2 (List.mem_cons_self a seen)

theorem mem_dedupFirst [DecidableEq α] {x : α} {l : List α} (hx : x ∈ l) :
    x ∈ dedupFirst l := by
  exact mem_dedupAux.mpr ⟨hx, by simp⟩

theorem nodup_dedupFirst [DecidableEq α] (l : List α) : (dedupFirst l).Nodup :=
  nodup_dedupAux l []

theorem filter_sum_split (val : α → ℚ) (q : α → Bool) (l : List α) :
    ((l.filter q).map val).sum + ((l.filter (fun a => !q a)).map val).sum
      = (l.map val).sum := by
  induction l with
  | nil => simp
  | cons a as ih =>
    cases hq : q a <;>
      simp [List.filter_cons, hq, ← ih, add_assoc, add_left_comm]

theorem partition_sum [DecidableEq β] (key : α → β) (val : α → ℚ)
    (ps : List β) (l : List α) (hcov : ∀ a ∈ l, key a ∈ ps) (hnd : ps.Nodup) :
    (ps.map (fun p => ((l.filter (fun a => decide (key a = p))).map val).sum)).sum
      = (l.map val).sum := by
  induction ps generalizing l with
  | nil =>
    cases l with
    | nil => simp
    | cons a as => exact absurd (hcov a (by simp)) (by simp)
  | cons p ps ih =>
    have hnd' := List.nodup_cons.mp hnd
    have hstep :
        (ps.map (fun p' => ((l.filter (fun a => decide (key a = p'))).map val).sum)).sum
          = (((l.filter (fun a => !decide (key a = p))).map val).sum) := by
      have hmc : ps.map (fun p' => ((l.filter (fun a => decide (key a = p'))).map val).sum)
          = ps.map (fun p' =>
              (((l.filter (fun a => !decide (key a = p))).filter
                (fun a => decide (key a = p'))).map val).sum) := by
        refine List.map_congr_left (fun p' hp' => ?_)
        have hpp : p' ≠ p := fun he => hnd'.1 (he ▸ hp')
        have hfe : (l.filter (fun a => !decide (key a = p))).filter
              (fun a => decide (key a = p'))
            = l.filter (fun a => decide (key a = p')) := by
          rw [List.filter_filter]
          refine List.filter_congr (fun a _ => ?_)
          by_cases hk : key a = p'
          · simp [hk, hpp]
          · simp [hk]
        rw [hfe]
      rw [hmc]
      refine ih (l.filter (fun a => !decide (key a = p))) (fun a ha => ?_)
        hnd'.2
      have hmem := List.mem_of_mem_filter ha
      have hne : ¬(key a = p) := by
        have := List.of_mem_filter ha
        simpa using this
      have := hcov a hmem
      simp only [List.mem_cons] at this
      exact this.resolve_left hne
    simp only [List.map_cons, List.sum_cons, hstep]
    exact filter_sum_split val (fun a => decide (key a = p)) l

end Lemmas

/-- C1: at the spec's three example rows, the code does produce distinct
products ["A", "B"], product revenues [300, 50], quantities [30, 5], average
revenues [10, 10] and month labels ["1/2023", "2/2023"], but its monthly
revenue is [0, 0], not the claimed [150, 200], and its monthly growth is not
[0, 33.33...]: the filter `item.Date.startsWith(month)` compares dates such
as "1/5/2023" against the key "1/2023", which is never a prefix, so every
monthly sum is 0 (and the growth at index 1 is 0/0, NaN in JS).  The model's
division by zero yields 0, so the modelled growth list is [0, 0]; either way
it differs from the claimed [0, 100/3]. -/
theorem claim1_code_behavior_at_example :
    productsOf exampleRows = [strC "A", strC "B"] ∧
    chartValues (createChartData exampleRows).productRevenueChart = [300, 50] ∧
    chartValues (createChartData exampleRows).quantitySoldChart = [30, 5] ∧
    chartValues (createChartData exampleRows).averageRevenueChart = [10, 10] ∧
    monthsOf exampleRows = [strC "1/2023", strC "2/2023"] ∧
    monthlyRevenueOf exampleRows = [0, 0] ∧
    monthlyRevenueOf exampleRows ≠ [150, 200] ∧
    monthlyGrowthOf exampleRows = [0, 0] ∧
    monthlyGrowthOf exampleRows ≠ [0, 100 / 3] := by
  have hprod : productsOf exampleRows = [strC "A", strC "B"] := by decide
  have hfA : exampleRows.filter (fun item => decide (item.productName = strC "A"))
      = [⟨strC "1/5/2023", strC "A", 100, 10⟩, ⟨strC "2/1/2023", strC "A", 200, 20⟩] := by
    decide
  have hfB : exampleRows.filter (fun item => decide (item.productName = strC "B"))
      = [⟨strC "1/6/2023", strC "B", 50, 5⟩] := by decide
  have hmr : monthlyRevenueOf exampleRows = [0, 0] := by decide
  have hrev : chartValues (createChartData exampleRows).productRevenueChart = [300, 50] := by
    show (productsOf exampleRows).map (fun product =>
        ((exampleRows.filter (fun item => decide (item.productName = product))).map
          (·.totalRevenue)).sum) = [300, 50]
    rw [hprod]
    simp only [List.map_cons, List.map_nil, hfA, hfB]
    norm_num
  have hqty : chartValues (createChartData exampleRows).quantitySoldChart = [30, 5] := by
    show (productsOf exampleRows).map (fun product =>
        ((exampleRows.filter (fun item => decide (item.productName = product))).map
          (·.quantitySold)).sum) = [30, 5]
    rw [hprod]
    simp only [List.map_cons, List.map_nil, hfA, hfB]
    norm_num
  have havg : chartValues (createChartData exampleRows).averageRevenueChart = [10, 10] := by
    show averageRevenueOf exampleRows = _
    unfold averageRevenueOf productRevenueSum productQuantitySum rowsForProduct
    rw [hprod]
    simp only [List.map_cons, List.map_nil, hfA, hfB]
    norm_num
  have hgrowth : monthlyGrowthOf exampleRows = [0, 0] := by
    unfold monthlyGrowthOf
    rw [hmr, show (([0, 0] : List ℚ)).length = 2 from rfl,
      show List.range 2 = [0, 1] from by decide]
    simp
  refine ⟨hprod, hrev, hqty, havg, by decide, hmr, by decide, hgrowth, ?_⟩
  rw [hgrowth]
  intro hcon
  simp only [List.cons.injEq] at hcon
  have h2 : (0 : ℚ) = 100 / 3 := hcon.2.1
  norm_num at h2

/-- C2: the month axis is exactly the per-row substring of Date before its
first '/' with the fixed "/2023" suffix appended, deduplicated in
first-occurrence order (the spec's-words formulation `specMonthKey`), and
each monthly revenue entry is the sum of Total Revenue over exactly the rows
whose Date starts with that month key, where `startsWithC` is string-prefix
in the literal sense. -/
theorem claim2_month_axis_refines_spec (rows : List Row) :
    (createChartData rows).monthlyGrowthChart.labels
        = some (dedupFirst (rows.map (fun r => specMonthKey r.Date))) ∧
    (∀ s p : List Char, startsWithC s p = true ↔ ∃ t, s = p ++ t) ∧
    (∀ i, i < (monthsOf rows).length →
      (monthlyRevenueOf rows).getD i 0
        = ((rows.filter (fun item =>
            startsWithC item.Date ((monthsOf rows).getD i []))).map
              (·.totalRevenue)).sum) := by
  refine ⟨?_, startsWithC_iff, fun i hi => ?_⟩
  · show some (monthsOf rows) = _
    unfold monthsOf datesOf
    rw [List.map_map]
    have hmap : rows.map ((fun d => (jsSplit '/' d).headD [] ++ strC "/2023") ∘ (·.Date))
        = rows.map (fun r => specMonthKey r.Date) := by
      refine List.map_congr_left (fun r _ => ?_)
      show (jsSplit '/' r.Date).headD [] ++ strC "/2023" = specMonthKey r.Date
      rw [jsSplit_headD]
      rfl
    rw [hmap]
  · unfold monthlyRevenueOf
    exact map_getD _ (monthsOf rows) i hi 0 []

/-- C2 witness: the month-sum characterization instantiated at the example
rows and index 0. -/
theorem claim2_witness :
    0 < (monthsOf exampleRows).length ∧
    (monthlyRevenueOf exampleRows).getD 0 0
      = ((exampleRows.filter (fun item =>
          startsWithC item.Date ((monthsOf exampleRows).getD 0 []))).map
            (·.totalRevenue)).sum :=
  ⟨by decide, (claim2_month_axis_refines_spec exampleRows).2.2 0 (by decide)⟩

/-- C3: monthlyGrowth[0] is 0 whenever it exists, and at every later index
whose previous monthly revenue is nonzero the growth is
(monthlyRevenue[i] - monthlyRevenue[i-1]) / monthlyRevenue[i-1] * 100. -/
theorem claim3_monthly_growth_formula (rows : List Row) :
    (∀ h : 0 < (monthlyGrowthOf rows).length,
      (monthlyGrowthOf rows).get ⟨0, h⟩ = 0) ∧
    (∀ i, 0 < i → i < (monthlyRevenueOf rows).length →
      (monthlyRevenueOf rows).getD (i - 1) 0 ≠ 0 →
      (monthlyGrowthOf rows).getD i 0
        = ((monthlyRevenueOf rows).getD i 0 - (monthlyRevenueOf rows).getD (i - 1) 0)
            / (monthlyRevenueOf rows).getD (i - 1) 0 * 100) := by
  constructor
  · intro h
    rw [get_zero_eq_getD _ h 0]
    have hlen : 0 < (monthlyRevenueOf rows).length := by
      unfold monthlyGrowthOf at h
      simpa using h
    unfold monthlyGrowthOf
    rw [map_getD _ _ 0 (by simpa using hlen) 0 0, range_getD hlen]
    simp
  · intro i hpos hlen _
    unfold monthlyGrowthOf
    rw [map_getD _ _ i (by simpa using hlen) 0 0, range_getD hlen,
      if_neg (Nat.pos_iff_ne_zero.mp hpos)]

/-- C3 witness: at rows whose dates are already month keys, monthly revenue
is [100, 50] and the growth at index 1 obeys the formula with a nonzero
previous month. -/
theorem monthlyRevenue_growthRows : monthlyRevenueOf growthRows = [100, 50] := by
  have hm : monthsOf growthRows = [strC "1/2023", strC "2/2023"] := by decide
  have h1 : growthRows.filter (fun item => startsWithC item.Date (strC "1/2023"))
      = [⟨strC "1/2023", strC "A", 100, 10⟩] := by decide
  have h2 : growthRows.filter (fun item => startsWithC item.Date (strC "2/2023"))
      = [⟨strC "2/2023", strC "B", 50, 5⟩] := by decide
  unfold monthlyRevenueOf
  rw [hm]
  simp only [List.map_cons, List.map_nil, h1, h2]
  norm_num

theorem claim3_witness :
    (0 < 1 ∧ 1 < (monthlyRevenueOf growthRows).length ∧
      (monthlyRevenueOf growthRows).getD 0 0 ≠ 0) ∧
    (monthlyGrowthOf growthRows).getD 1 0
      = ((monthlyRevenueOf growthRows).getD 1 0 - (monthlyRevenueOf growthRows).getD 0 0)
          / (monthlyRevenueOf growthRows).getD 0 0 * 100 :=
  ⟨⟨by decide, by decide, by rw [monthlyRevenue_growthRows]; norm_num⟩,
    (claim3_monthly_growth_formula growthRows).2 1 (by decide) (by decide)
      (by rw [monthlyRevenue_growthRows]; norm_num)⟩

/-- C4: the three product charts share the identical label list (the
distinct products in first-occurrence order), every products- or
months-indexed value list has the same length as its label list, and each
value at index i is the aggregate for the label at index i. -/
theorem claim4_label_alignment (rows : List Row) (_hne : rows ≠ []) :
    (createChartData rows).productRevenueChart.labels = some (productsOf rows) ∧
    (createChartData rows).quantitySoldChart.labels = some (productsOf rows) ∧
    (createChartData rows).averageRevenueChart.labels = some (productsOf rows) ∧
    (chartValues (createChartData rows).productRevenueChart).length
      = (productsOf rows).length ∧
    (chartValues (createChartData rows).quantitySoldChart).length
      = (productsOf rows).length ∧
    (chartValues (createChartData rows).averageRevenueChart).length
      = (productsOf rows).length ∧
    (chartPoints (createChartData rows).scatterPlotData).length
      = (productsOf rows).length ∧
    (createChartData rows).revenueOverTime.labels = some (datesOf rows) ∧
    (chartValues (createChartData rows).revenueOverTime).length
      = (datesOf rows).length ∧
    (createChartData rows).monthlyGrowthChart.labels = some (monthsOf rows) ∧
    (chartValues (createChartData rows).monthlyGrowthChart).length
      = (monthsOf rows).length ∧
    (monthlyRevenueOf rows).length = (monthsOf rows).length ∧
    (∀ i, i < (productsOf rows).length →
      (chartValues (createChartData rows).productRevenueChart).getD i 0
          = productRevenueSum rows ((productsOf rows).getD i []) ∧
      (chartValues (createChartData rows).quantitySoldChart).getD i 0
          = productQuantitySum rows ((productsOf rows).getD i []) ∧
      (chartValues (createChartData rows).averageRevenueChart).getD i 0
          = productRevenueSum rows ((productsOf rows).getD i [])
              / productQuantitySum rows ((productsOf rows).getD i [])) := by
  refine ⟨rfl, rfl, rfl, ?_, ?_, ?_, ?_, rfl, ?_, rfl, ?_, ?_, fun i hi => ?_⟩
  · show (List.map _ (productsOf rows)).length = _
    exact List.length_map _ _
  · show (List.map _ (productsOf rows)).length = _
    exact List.length_map _ _
  · show (List.map _ (productsOf rows)).length = _
    exact List.length_map _ _
  · show (List.map _ (productsOf rows)).length = _
    exact List.length_map _ _
  · show (List.map _ rows).length = _
    simp [datesOf]
  · show (List.map _ (List.range (monthlyRevenueOf rows).length)).length = _
    simp [monthlyRevenueOf]
  · show (List.map _ (monthsOf rows)).length = _
    exact List.length_map _ _
  refine ⟨?_, ?_, ?_⟩
  · show ((productsOf rows).map _).getD i 0 = _
    rw [map_getD _ _ i hi 0 []]
    simp [productRevenueSum, rowsForProduct]
  · show ((productsOf rows).map _).getD i 0 = _
    rw [map_getD _ _ i hi 0 []]
    simp [productQuantitySum, rowsForProduct]
  · show (averageRevenueOf rows).getD i 0 = _
    unfold averageRevenueOf
    rw [map_getD _ _ i hi 0 []]

/-- C4 witness: the label identity at the non-empty example rows. -/
theorem claim4_witness :
    exampleRows ≠ [] ∧
    (createChartData exampleRows).productRevenueChart.labels
      = some (productsOf exampleRows) :=
  ⟨by decide, (claim4_label_alignment exampleRows (by decide)).1⟩

/-- C5: the sum of the per-product revenue values equals the sum of the
per-row revenue values; grouping by distinct product conserves total
revenue. -/
theorem claim5_revenue_conserved (rows : List Row) :
    (chartValues (createChartData rows).productRevenueChart).sum
      = (chartValues (createChartData rows).revenueOverTime).sum := by
  have h := partition_sum Row.productName Row.totalRevenue (productsOf rows) rows
    (fun r hr => mem_dedupFirst (List.mem_map_of_mem _ hr)) (nodup_dedupFirst _)
  simpa [chartValues, createChartData, totalRevenueOf] using h

/-- C6: at every index into the distinct-product list, the scatter point's x
coordinate equals the quantity-sold value and its y coordinate equals the
product-revenue value, although each is computed by its own filter-and-reduce
pass in the code. -/
theorem claim6_scatter_matches_bars (rows : List Row) (i : ℕ)
    (hi : i < (productsOf rows).length) :
    ((chartPoints (createChartData rows).scatterPlotData).getD i (0, 0)).1
      = (chartValues (createChartData rows).quantitySoldChart).getD i 0 ∧
    ((chartPoints (createChartData rows).scatterPlotData).getD i (0, 0)).2
      = (chartValues (createChartData rows).productRevenueChart).getD i 0 := by
  have hx := map_getD (fun p => (productQuantitySum rows p, productRevenueSum rows p))
    (productsOf rows) i hi (0, 0) []
  have hq := map_getD (fun product => ((rows.filter (fun item =>
      decide (item.productName = product))).map (·.quantitySold)).sum)
    (productsOf rows) i hi 0 []
  have hr := map_getD (fun product => ((rows.filter (fun item =>
      decide (item.productName = product))).map (·.totalRevenue)).sum)
    (productsOf rows) i hi 0 []
  constructor
  · show ((revenueVsQuantityOf rows).getD i (0, 0)).1
        = ((productsOf rows).map (fun product => ((rows.filter (fun item =>
            decide (item.productName = product))).map (·.quantitySold)).sum)).getD i 0
    unfold revenueVsQuantityOf
    rw [hx, hq]
    simp [productQuantitySum, rowsForProduct]
  · show ((revenueVsQuantityOf rows).getD i (0, 0)).2
        = ((productsOf rows).map (fun product => ((rows.filter (fun item =>
            decide (item.productName = product))).map (·.totalRevenue)).sum)).getD i 0
    unfold revenueVsQuantityOf
    rw [hx, hr]
    simp [productRevenueSum, rowsForProduct]

/-- C6 witness: the x coordinate of the first scatter point matches the first
quantity-sold value at the example rows. -/
theorem claim6_witness :
    0 < (productsOf exampleRows).length ∧
    ((chartPoints (createChartData exampleRows).scatterPlotData).getD 0 (0, 0)).1
      = (chartValues (createChartData exampleRows).quantitySoldChart).getD 0 0 :=
  ⟨by decide, (claim6_scatter_matches_bars exampleRows 0 (by decide)).1⟩

/-- C7: the pipeline is total and pure: on the empty row sequence every
label-bearing chart has empty labels and empty values and the scatter chart
has no points, and the result is a deterministic function of the rows. -/
theorem claim7_total_and_deterministic :
    ((createChartData []).revenueOverTime.labels = some [] ∧
     chartValues (createChartData []).revenueOverTime = [] ∧
     (createChartData []).productRevenueChart.labels = some [] ∧
     chartValues (createChartData []).productRevenueChart = [] ∧
     (createChartData []).quantitySoldChart.labels = some [] ∧
     chartValues (createChartData []).quantitySoldChart = [] ∧
     (createChartData []).averageRevenueChart.labels = some [] ∧
     chartValues (createChartData []).averageRevenueChart = [] ∧
     (createChartData []).scatterPlotData.labels = none ∧
     chartPoints (createChartData []).scatterPlotData = [] ∧
     (createChartData []).monthlyGrowthChart.labels = some [] ∧
     chartValues (createChartData []).monthlyGrowthChart = []) ∧
    (∀ rows : List Row, createChartData rows = createChartData rows) :=
  ⟨by decide, fun _ => rfl⟩

/-- C8: the upload route answers 400 "No file uploaded." when the request has
no file, 400 "Invalid JSON file." when the bytes do not parse as JSON, and
200 with the parsed JSON value otherwise, for any parse function standing in
for JSON.parse. -/
theorem claim8_upload_contract {J : Type} (parseJson : List Char → Option J)
    (file : Option (List Char)) :
    (file = none →
      uploadHandler parseJson file = ⟨400, .text (strC "No file uploaded.")⟩) ∧
    (∀ bytes, file = some bytes →
      (parseJson bytes = none →
        uploadHandler parseJson file = ⟨400, .text (strC "Invalid JSON file.")⟩) ∧
      (∀ j, parseJson bytes = some j →
        uploadHandler parseJson file = ⟨200, .json j⟩)) := by
  refine ⟨fun h => by rw [h]; rfl, fun bytes hb => ⟨fun hp => ?_, fun j hp => ?_⟩⟩
  · rw [hb]
    simp [uploadHandler, hp]
  · rw [hb]
    simp [uploadHandler, hp]

/-- C8 witness: with a parse function that always fails and no file present,
the handler answers 400 "No file uploaded.". -/
theorem claim8_witness :
    (none : Option (List Char)) = none ∧
    uploadHandler (fun _ => (none : Option ℕ)) (none : Option (List Char))
      = ⟨400, .text (strC "No file uploaded.")⟩ :=
  ⟨rfl, (claim8_upload_contract (fun _ => (none : Option ℕ)) none).1 rfl⟩

/-- C9: selecting a file whose lower-cased extension is none of csv, xls,
xlsx leaves the dashboard's stored data state exactly as it was: no rows are
produced and no error is raised. -/
theorem claim9_unknown_extension_noop (parseCsv parseXlsx : List Char → List Row)
    (f : UploadedFile) (data : Option (List Row))
    (h1 : fileExtensionOf f.name ≠ strC "csv")
    (h2 : fileExtensionOf f.name ≠ strC "xls")
    (h3 : fileExtensionOf f.name ≠ strC "xlsx") :
    handleFileChange parseCsv parseXlsx (some f) data = data := by
  simp [handleFileChange, h1, h2, h3]

/-- C9 witness: a file named report.pdf leaves the stored example rows
untouched. -/
theorem claim9_witness :
    (fileExtensionOf (strC "report.pdf") ≠ strC "csv" ∧
     fileExtensionOf (strC "report.pdf") ≠ strC "xls" ∧
     fileExtensionOf (strC "report.pdf") ≠ strC "xlsx") ∧
    handleFileChange (fun _ => []) (fun _ => [])
      (some ⟨strC "report.pdf", strC "col1,col2"⟩) (some exampleRows)
      = some exampleRows :=
  ⟨⟨by decide, by decide, by decide⟩,
    claim9_unknown_extension_noop (fun _ => []) (fun _ => [])
      ⟨strC "report.pdf", strC "col1,col2"⟩ (some exampleRows)
      (by decide) (by decide) (by decide)⟩

/-- C10: for every row sequence, the scatter output is the only one of the
six returned chart objects without a labels field; it holds just the (x, y)
points, while the other five all carry labels. -/
theorem claim10_scatter_has_no_labels (rows : List Row) :
    (createChartData rows).scatterPlotData.labels = none ∧
    (createChartData rows).scatterPlotData.seriesData
      = .points (revenueVsQuantityOf rows) ∧
    (createChartData rows).revenueOverTime.labels.isSome = true ∧
    (createChartData rows).productRevenueChart.labels.isSome = true ∧
    (createChartData rows).quantitySoldChart.labels.isSome = true ∧
    (createChartData rows).averageRevenueChart.labels.isSome = true ∧
    (createChartData rows).monthlyGrowthChart.labels.isSome = true :=
  ⟨rfl, rfl, rfl, rfl, rfl, rfl, rfl⟩

end VRP
